import Mathlib

/-
Verification of the pass3 calendar website (Rust, axum + sqlx/PostgreSQL).

The development shallowly embeds the two source files:
  * src/main.rs          - the dashboard API handlers and the GitHub mirror push
  * src/bin/import_events.rs - the legacy import loader's status parsing

The store is modelled as explicit lists of rows; SQL statements become pure
functions on that state; bound parameters keep their wire types so that the
type mismatches present in the source (UUID text bound into integer columns)
are visible to the model.  Randomly generated UUIDs (`Uuid::new_v4`) are
nondeterministic, so handlers take the generated strings as explicit inputs;
the only fact the proofs use about them is that a version-4 UUID string
always carries a hyphen at index 8, which no integer literal does.
-/

/-- The WorkflowState enumeration, from src/main.rs lines 65-88 (the copy in
src/bin/import_events.rs lines 14-36 is identical). -/
inductive WorkflowState
  | NotYetStarted
  | TransferFromTape
  | ProcessStep1
  | FinishStep1
  | TransferWIPAC
  | ProcessStep2
  | FinishStep2
  | Complete
  | Step1Error
  | Step2Error
deriving DecidableEq, Repr

/-- The Display implementation for WorkflowState, src/bin/import_events.rs
lines 38-53 (identical in src/main.rs lines 90-105): the canonical display
string of each state. -/
def WorkflowState.display : WorkflowState → String
  | WorkflowState.NotYetStarted => "Not Yet Started"
  | WorkflowState.TransferFromTape => "Transfer from Tape"
  | WorkflowState.ProcessStep1 => "Process Step 1"
  | WorkflowState.FinishStep1 => "Finish Step 1"
  | WorkflowState.TransferWIPAC => "Transfer WIPAC"
  | WorkflowState.ProcessStep2 => "Process Step 2"
  | WorkflowState.FinishStep2 => "Finish Step 2"
  | WorkflowState.Complete => "Complete"
  | WorkflowState.Step1Error => "Step 1 Error"
  | WorkflowState.Step2Error => "Step 2 Error"

/-- parse_status_to_state, src/bin/import_events.rs lines 55-69: exact string
match against the canonical display strings, any other string falls through
to NotYetStarted. -/
def parse_status_to_state (status : String) : WorkflowState :=
  if status = "Not Yet Started" then WorkflowState.NotYetStarted
  else if status = "Transfer from Tape" then WorkflowState.TransferFromTape
  else if status = "Process Step 1" then WorkflowState.ProcessStep1
  else if status = "Finish Step 1" then WorkflowState.FinishStep1
  else if status = "Transfer WIPAC" then WorkflowState.TransferWIPAC
  else if status = "Process Step 2" then WorkflowState.ProcessStep2
  else if status = "Finish Step 2" then WorkflowState.FinishStep2
  else if status = "Complete" then WorkflowState.Complete
  else if status = "Step 1 Error" then WorkflowState.Step1Error
  else if status = "Step 2 Error" then WorkflowState.Step2Error
  else WorkflowState.NotYetStarted

/-- The Run row, src/main.rs lines 107-114.  chrono timestamps are modelled
as integers (their tick count); nothing in the claims depends on calendar
structure. -/
structure Run where
  run_number : Int
  file_number : Int
  run_start_date : Int
  state : WorkflowState
  url : Option String
deriving DecidableEq, Repr

/-- The ProcessingStep row, src/main.rs lines 116-126. -/
structure ProcessingStep where
  id : String
  run_number : Int
  step_number : Int
  started_date : Option Int
  end_date : Option Int
  site : Option String
  checksum : Option String
  location : Option String
deriving DecidableEq, Repr

/-- The two tables of the canonical store (runs, processing_steps). -/
structure Store where
  runs : List Run
  steps : List ProcessingStep
deriving DecidableEq, Repr

/-- A value bound into an SQL parameter, tagged with its wire type, so that
binding a text value against an integer column is representable (create_run
does exactly that with `Uuid::new_v4().to_string()`). -/
inductive SqlValue
  | int (n : Int)
  | text (s : String)
  | timestamp (t : Int)
  | null
deriving DecidableEq, Repr

/-- Errors a statement execution can report. -/
inductive DbError
  | typeMismatch
  | uniqueViolation
deriving DecidableEq, Repr

/-- True on a list of decimal digit characters only. -/
def allDigits : List Char → Bool
  | [] => true
  | c :: cs => c.isDigit && allDigits cs

/-- Numeric value of a digit list (most significant first). -/
def digitsToNat (l : List Char) : Nat :=
  l.foldl (fun a c => a * 10 + (c.toNat - 48)) 0

/-- Conversion of a character sequence into an integer column value: an
optional leading minus sign followed by at least one decimal digit.  This is
deliberately generous to the code: PostgreSQL rejects a text-typed bound
parameter for an integer column outright, while this model accepts any
decimal integer literal.  A UUID string fails either way because of its
hyphens. -/
def pgCharsToInt : List Char → Option Int
  | [] => none
  | c :: cs =>
    if c = '-' then
      (if cs ≠ [] ∧ allDigits cs = true then some (-(digitsToNat cs : Int)) else none)
    else
      (if allDigits (c :: cs) = true then some ((digitsToNat (c :: cs) : Int)) else none)

/-- Conversion of a text value into an integer column. -/
def pgTextToInt (s : String) : Option Int :=
  pgCharsToInt s.data

/-- Decoding of a bound value against an integer column. -/
def decodeInt : SqlValue → Option Int
  | SqlValue.int n => some n
  | SqlValue.text s => pgTextToInt s
  | SqlValue.timestamp _ => none
  | SqlValue.null => none

/-- Decoding of a bound value against a text column. -/
def decodeText : SqlValue → Option String
  | SqlValue.text s => some s
  | _ => none

/-- The statement `INSERT INTO runs (run_number, file_number, run_start_date,
state, url) VALUES ($1, $2, $3, $4, $5)` as executed by create_run
(src/main.rs lines 220-227).  The first parameter keeps its bound wire value
because the source binds `Uuid::new_v4().to_string()` there; the remaining
parameters are bound with their column types (payload.state is bound as a raw
string in the source - the model takes it already decoded, which is generous
to the code: the insert below fails even granting that bind).  The store
enforces uniqueness of run_number. -/
def runs_insert (st : Store) (runv : SqlValue) (file_number run_start_date : Int)
    (state : WorkflowState) (url : Option String) : Except DbError Store :=
  match decodeInt runv with
  | some rn =>
    if st.runs.any fun r => decide (r.run_number = rn) then
      Except.error DbError.uniqueViolation
    else
      Except.ok { st with runs := st.runs ++ [⟨rn, file_number, run_start_date, state, url⟩] }
  | none => Except.error DbError.typeMismatch

/-- The statement `INSERT INTO processing_steps (id, run_number, step_number)
VALUES ($1, $2, $3)` as executed by create_run (src/main.rs lines 231-236):
id and run_number keep their bound wire values (the source binds a fresh
UUID string for each).  The store enforces uniqueness of
(run_number, step_number); the optional columns start empty. -/
def processing_steps_insert (st : Store) (idv runv : SqlValue) (step_number : Int) :
    Except DbError Store :=
  match decodeText idv, decodeInt runv with
  | some idStr, some rn =>
    if st.steps.any fun s => decide (s.run_number = rn ∧ s.step_number = step_number) then
      Except.error DbError.uniqueViolation
    else
      Except.ok { st with steps := st.steps ++ [⟨idStr, rn, step_number, none, none, none, none, none⟩] }
  | _, _ => Except.error DbError.typeMismatch

/-- The `let _ = ... .execute(...)` pattern of create_run's step loop: a
failed statement is silently discarded, leaving the prior store. -/
def ignoreErr (st : Store) (r : Except DbError Store) : Store :=
  match r with
  | Except.ok st2 => st2
  | Except.error _ => st

/-- axum CookieJar.get by cookie name, modelling the jar as name/value
pairs. -/
def jarGet (jar : List (String × String)) (name : String) : Option String :=
  (jar.find? fun q => q.1 == name).map Prod.snd

/-- An HTTP response: status code and JSON string body. -/
structure ApiResponse where
  status : Nat
  body : String
deriving DecidableEq, Repr

/-- The POST /api/runs request body, src/main.rs lines 134-140.  The source
declares `state: String` and binds it raw; the model takes it already
decoded into the enum (see runs_insert). -/
structure CreateRunPayload where
  file_number : Int
  run_start_date : Int
  state : WorkflowState
  url : Option String
deriving DecidableEq, Repr

/-- The POST /api/steps request body, src/main.rs lines 142-151. -/
structure UpdateStepPayload where
  run_number : Int
  step_number : Int
  started_date : Option Int
  end_date : Option Int
  site : Option String
  checksum : Option String
  location : Option String
deriving DecidableEq, Repr

/-- The POST /api/runs/:run_number/state request body, src/main.rs lines
153-157.  Its run_number field is never read by the handler (the path
parameter is used instead) - kept for fidelity. -/
structure UpdateRunStatePayload where
  run_number : Int
  new_state : WorkflowState
deriving DecidableEq, Repr

/-- The create_run handler, src/main.rs lines 209-245.  The five String
arguments are the successive `Uuid::new_v4().to_string()` results the source
generates: one bound into the integer run_number column of runs, then per
step an id and another uuid bound in place of the run number (the source
comments there read "We'll use a simple auto-increment approach instead" and
"This will be replaced with actual run_number").  Step-insert failures are
discarded with `let _ =`. -/
def create_run (st : Store) (jar : List (String × String)) (p : CreateRunPayload)
    (u0 uid1 urn1 uid2 urn2 : String) : ApiResponse × Store :=
  if jarGet jar "session" ≠ some "admin_authorized" then
    (⟨401, "Please Log In First"⟩, st)
  else
    match runs_insert st (SqlValue.text u0) p.file_number p.run_start_date p.state p.url with
    | Except.ok st1 =>
      let st2 := ignoreErr st1 (processing_steps_insert st1 (SqlValue.text uid1) (SqlValue.text urn1) 1)
      let st3 := ignoreErr st2 (processing_steps_insert st2 (SqlValue.text uid2) (SqlValue.text urn2) 2)
      (⟨200, "Run created"⟩, st3)
    | Except.error _ => (⟨500, "Failed to create run"⟩, st)

/-- The update_run_state handler, src/main.rs lines 247-266: `UPDATE runs SET
state = $1 WHERE run_number = $2`, reporting "Updated" when rows_affected > 0
and 200 "No runs updated" otherwise.  The third component of the result
records the mirror pushes the handler dispatches: the source spawns none
(push_to_github_event is never called), so it is [] on every path. -/
def update_run_state (st : Store) (jar : List (String × String)) (run_number : Int)
    (p : UpdateRunStatePayload) : ApiResponse × Store × List Run :=
  if jarGet jar "session" ≠ some "admin_authorized" then
    (⟨401, "Please Log In First"⟩, st, [])
  else
    if (st.runs.filter fun r => decide (r.run_number = run_number)).length > 0 then
      (⟨200, "Updated"⟩,
       { st with runs := st.runs.map fun r =>
          if r.run_number = run_number then { r with state := p.new_state } else r },
       [])
    else
      (⟨200, "No runs updated"⟩, st, [])

/-- The update_step handler, src/main.rs lines 268-293: `UPDATE
processing_steps SET started_date = $1, end_date = $2, site = $3, checksum =
$4, location = $5 WHERE run_number = $6 AND step_number = $7` - every
optional column is set unconditionally from the payload; rows_affected = 0
yields 200 "No steps updated". -/
def update_step (st : Store) (jar : List (String × String)) (p : UpdateStepPayload) :
    ApiResponse × Store :=
  if jarGet jar "session" ≠ some "admin_authorized" then
    (⟨401, "Please Log In First"⟩, st)
  else
    if (st.steps.filter fun s =>
        decide (s.run_number = p.run_number ∧ s.step_number = p.step_number)).length > 0 then
      (⟨200, "Step updated"⟩,
       { st with steps := st.steps.map fun s =>
          if s.run_number = p.run_number ∧ s.step_number = p.step_number then
            { s with started_date := p.started_date, end_date := p.end_date,
                     site := p.site, checksum := p.checksum, location := p.location }
          else s })
    else
      (⟨200, "No steps updated"⟩, st)

/-- The get_runs handler, src/main.rs lines 178-186: the query result (the
database also applies ORDER BY run_start_date DESC) is taken with
`.unwrap_or_default()`, and the response is always a 200 with a JSON array
body. -/
structure RunsResponse where
  status : Nat
  runs : List Run
deriving DecidableEq, Repr

/-- get_runs itself, over the outcome of the store query. -/
def get_runs (qres : Except DbError (List Run)) : RunsResponse :=
  ⟨200, match qres with
        | Except.ok rs => rs
        | Except.error _ => []⟩

/-- The external versioned mirror: content (modelled semantically as the run
collection the JSON file holds) and its opaque token (the git blob sha). -/
structure Mirror where
  content : List Run
  sha : String
deriving DecidableEq, Repr

/-- The GitHub contents-API update payload, src/main.rs lines 169-174, with
`content` modelled semantically (the source serializes to JSON and base64;
both are injective encodings). -/
structure GitHubUpdatePayload where
  message : String
  content : List Run
  sha : String
deriving DecidableEq, Repr

/-- The conditional PUT of the contents API: the write lands only when the
submitted sha still equals the mirror's current sha, otherwise a 409
Conflict is returned and the mirror is unchanged. -/
def mirrorPut (m : Mirror) (b : GitHubUpdatePayload) (newSha : String) : Mirror × Nat :=
  if b.sha = m.sha then ({ content := b.content, sha := newSha }, 200)
  else (m, 409)

/-- Trace of one push_to_github_event call: how many GETs and conditional
PUTs it performed, the HTTP status of the last PUT, whether the function
returned Ok, and the mirror afterwards. -/
structure PushTrace where
  fetches : Nat
  writes : Nat
  lastStatus : Nat
  okResult : Bool
  mirror : Mirror
deriving DecidableEq, Repr

/-- The commit message built at src/main.rs line 332. -/
def push_message (run : Run) : String :=
  "Update run " ++ toString run.run_number ++ " state to " ++ run.state.display
    ++ " via Web Dashboard"

/-- push_to_github_event, src/main.rs lines 315-344: one GET of the current
sha, one serialization of `vec![run]`, one conditional PUT whose response
status is never inspected (`?` only propagates transport failures), then
Ok(()).  `midway` is an external write landing between the GET and the PUT
(the source has no protection against it); `newSha` is the token the mirror
would assign to a successful write. -/
def push_to_github_event (run : Run) (m : Mirror) (midway : Option Mirror)
    (newSha : String) : PushTrace :=
  let sha := m.sha
  let b : GitHubUpdatePayload := ⟨push_message run, [run], sha⟩
  let current := midway.getD m
  let put := mirrorPut current b newSha
  ⟨1, 1, put.2, true, put.1⟩

/-- Every character of an all-digits list is a digit. -/
theorem allDigits_mem {l : List Char} (h : allDigits l = true) {c : Char}
    (hc : c ∈ l) : c.isDigit = true := by
  induction l with
  | nil => cases hc
  | cons a as ih =>
    have h2 : a.isDigit = true ∧ allDigits as = true := by
      simpa [allDigits, Bool.and_eq_true] using h
    cases hc with
    | head => exact h2.1
    | tail _ hm => exact ih h2.2 hm

/-- A character list with a hyphen at index 8 is not an integer literal:
after the optional leading sign every character must be a digit, and the
hyphen at index 8 (index 7 of the tail) is not one. -/
theorem pgCharsToInt_hyphen {l : List Char} (h : l.get? 8 = some '-') :
    pgCharsToInt l = none := by
  cases l with
  | nil => simp at h
  | cons c cs =>
    have h7 : cs.get? 7 = some '-' := h
    have hmem : '-' ∈ cs := List.get?_mem h7
    simp only [pgCharsToInt]
    by_cases hc : c = '-'
    · rw [if_pos hc, if_neg]
      rintro ⟨-, hall⟩
      exact absurd (allDigits_mem hall hmem) (by decide)
    · rw [if_neg hc, if_neg]
      intro hall
      exact absurd (allDigits_mem hall (List.mem_cons_of_mem c hmem)) (by decide)

/-- Claim C9: the import loader's status mapping returns the WorkflowState
whose canonical display string exactly equals the input when one exists and
NotYetStarted for every other string, and mapping a display string round
trips. -/
theorem parse_status_exact_match_spec :
    (∀ (s : String) (w : WorkflowState),
      WorkflowState.display w = s → parse_status_to_state s = w) ∧
    (∀ s : String, (∀ w : WorkflowState, WorkflowState.display w ≠ s) →
      parse_status_to_state s = WorkflowState.NotYetStarted) ∧
    (∀ w : WorkflowState, parse_status_to_state (WorkflowState.display w) = w) := by
  have hmatch : ∀ (s : String) (w : WorkflowState),
      WorkflowState.display w = s → parse_status_to_state s = w := by
    intro s w hw
    subst hw
    cases w <;> decide
  have hor : ∀ s : String,
      parse_status_to_state s = WorkflowState.NotYetStarted ∨
      WorkflowState.display (parse_status_to_state s) = s := by
    intro s
    unfold parse_status_to_state
    repeat' split
    all_goals first
      | (left; rfl)
      | (rename_i hc; subst hc; right; rfl)
  refine ⟨hmatch, ?_, fun w => hmatch _ w rfl⟩
  intro s h
  rcases hor s with hdef | hdisp
  · exact hdef
  · exact absurd hdisp (h _)

/-- Witness for C9 at concrete strings. -/
theorem parse_status_exact_match_spec_witness :
    parse_status_to_state "Transfer WIPAC" = WorkflowState.TransferWIPAC ∧
    parse_status_to_state "bogus status" = WorkflowState.NotYetStarted :=
  ⟨parse_status_exact_match_spec.1 "Transfer WIPAC" WorkflowState.TransferWIPAC rfl,
   parse_status_exact_match_spec.2.1 "bogus status" (by intro w; cases w <;> decide)⟩

/-- Claim C10: get_runs never surfaces a store error: every response is a
200, and a failed query produces exactly the response of an empty store. -/
theorem get_runs_swallows_store_errors :
    (∀ e : DbError, get_runs (Except.error e) = ⟨200, []⟩) ∧
    (∀ e : DbError, get_runs (Except.error e) = get_runs (Except.ok [])) ∧
    (∀ q : Except DbError (List Run), (get_runs q).status = 200) := by
  refine ⟨fun e => rfl, fun e => rfl, fun q => ?_⟩
  cases q <;> rfl

/-- Claim C7: a mutating request whose jar lacks a session cookie with exact
value "admin_authorized" gets a 401 from each of the three mutating handlers
and the store (and the push list) is untouched. -/
theorem mutating_handlers_require_session (st : Store) (jar : List (String × String))
    (h : jarGet jar "session" ≠ some "admin_authorized")
    (p1 : CreateRunPayload) (u0 uid1 urn1 uid2 urn2 : String)
    (rn : Int) (p2 : UpdateRunStatePayload) (p3 : UpdateStepPayload) :
    create_run st jar p1 u0 uid1 urn1 uid2 urn2 = (⟨401, "Please Log In First"⟩, st) ∧
    update_run_state st jar rn p2 = (⟨401, "Please Log In First"⟩, st, []) ∧
    update_step st jar p3 = (⟨401, "Please Log In First"⟩, st) := by
  refine ⟨?_, ?_, ?_⟩
  · unfold create_run
    rw [if_pos h]
  · unfold update_run_state
    rw [if_pos h]
  · unfold update_step
    rw [if_pos h]

/-- Witness for C7: an absent cookie jar against each handler. -/
theorem mutating_handlers_require_session_witness :
    create_run ⟨[], []⟩ [] ⟨0, 0, WorkflowState.NotYetStarted, none⟩ "a" "b" "c" "d" "e"
      = (⟨401, "Please Log In First"⟩, ⟨[], []⟩) ∧
    update_run_state ⟨[], []⟩ [] 1 ⟨1, WorkflowState.Complete⟩
      = (⟨401, "Please Log In First"⟩, ⟨[], []⟩, []) ∧
    update_step ⟨[], []⟩ [] ⟨1, 1, none, none, none, none, none⟩
      = (⟨401, "Please Log In First"⟩, ⟨[], []⟩) :=
  mutating_handlers_require_session ⟨[], []⟩ [] (by decide)
    ⟨0, 0, WorkflowState.NotYetStarted, none⟩ "a" "b" "c" "d" "e"
    1 ⟨1, WorkflowState.Complete⟩ ⟨1, 1, none, none, none, none, none⟩

/-- Claim C1 (the code contradicts it): create_run binds a random UUID
string - whose index-8 character is always a hyphen - into the integer
run_number column, so the insert is rejected and no run number, sequential
or otherwise, is ever assigned; every authorized createRun returns a 500
with the store unchanged. -/
theorem create_run_uuid_not_sequential (st : Store) (jar : List (String × String))
    (p : CreateRunPayload) (u0 uid1 urn1 uid2 urn2 : String)
    (hauth : jarGet jar "session" = some "admin_authorized")
    (h0 : u0.data.get? 8 = some '-') :
    runs_insert st (SqlValue.text u0) p.file_number p.run_start_date p.state p.url
      = Except.error DbError.typeMismatch ∧
    create_run st jar p u0 uid1 urn1 uid2 urn2 = (⟨500, "Failed to create run"⟩, st) := by
  have hins : runs_insert st (SqlValue.text u0) p.file_number p.run_start_date p.state p.url
      = Except.error DbError.typeMismatch := by
    simp [runs_insert, decodeInt, pgTextToInt, pgCharsToInt_hyphen h0]
  refine ⟨hins, ?_⟩
  unfold create_run
  rw [if_neg (not_not_intro hauth), hins]

/-- Witness for C1 at a concrete version-4 UUID string. -/
theorem create_run_uuid_not_sequential_witness :
    runs_insert ⟨[], []⟩ (SqlValue.text "550e8400-e29b-41d4-a716-446655440000")
      0 0 WorkflowState.NotYetStarted none = Except.error DbError.typeMismatch ∧
    create_run ⟨[], []⟩ [( "session", "admin_authorized" )]
      ⟨0, 0, WorkflowState.NotYetStarted, none⟩
      "550e8400-e29b-41d4-a716-446655440000" "a" "b" "c" "d"
      = (⟨500, "Failed to create run"⟩, ⟨[], []⟩) :=
  create_run_uuid_not_sequential ⟨[], []⟩ [( "session", "admin_authorized" )]
    ⟨0, 0, WorkflowState.NotYetStarted, none⟩
    "550e8400-e29b-41d4-a716-446655440000" "a" "b" "c" "d" (by decide) (by decide)

/-- Claim C2 (the code contradicts it): the step inserts of create_run bind
fresh UUID strings in place of the run number, so a step row whose
run_number equals the created run's number is never produced - in fact the
step table is left exactly as it was by every create_run call, and any
processing_steps insert binding a UUID-shaped text as run_number is
rejected. -/
theorem create_run_steps_orphaned (st : Store) (jar : List (String × String))
    (p : CreateRunPayload) (u0 uid1 urn1 uid2 urn2 : String)
    (h0 : u0.data.get? 8 = some '-') :
    ((create_run st jar p u0 uid1 urn1 uid2 urn2).2).steps = st.steps ∧
    (∀ (st2 : Store) (idv urn : String) (sn : Int), urn.data.get? 8 = some '-' →
      processing_steps_insert st2 (SqlValue.text idv) (SqlValue.text urn) sn
        = Except.error DbError.typeMismatch) := by
  constructor
  · unfold create_run
    by_cases hj : jarGet jar "session" ≠ some "admin_authorized"
    · rw [if_pos hj]
    · rw [if_neg hj]
      have hins : runs_insert st (SqlValue.text u0) p.file_number p.run_start_date p.state p.url
          = Except.error DbError.typeMismatch := by
        simp [runs_insert, decodeInt, pgTextToInt, pgCharsToInt_hyphen h0]
      rw [hins]
  · intro st2 idv urn sn hu
    simp [processing_steps_insert, decodeText, decodeInt, pgTextToInt,
      pgCharsToInt_hyphen hu]

/-- Witness for C2 at concrete version-4 UUID strings. -/
theorem create_run_steps_orphaned_witness :
    ((create_run ⟨[], []⟩ [( "session", "admin_authorized" )]
        ⟨0, 0, WorkflowState.NotYetStarted, none⟩
        "550e8400-e29b-41d4-a716-446655440000" "a"
        "16fd2706-8baf-433b-82eb-8c7fada847da" "b"
        "16fd2706-8baf-433b-82eb-8c7fada847da").2).steps = [] ∧
    processing_steps_insert ⟨[], []⟩ (SqlValue.text "a")
      (SqlValue.text "16fd2706-8baf-433b-82eb-8c7fada847da") 1
      = Except.error DbError.typeMismatch :=
  ⟨(create_run_steps_orphaned ⟨[], []⟩ [( "session", "admin_authorized" )]
      ⟨0, 0, WorkflowState.NotYetStarted, none⟩
      "550e8400-e29b-41d4-a716-446655440000" "a"
      "16fd2706-8baf-433b-82eb-8c7fada847da" "b"
      "16fd2706-8baf-433b-82eb-8c7fada847da" (by decide)).1,
   (create_run_steps_orphaned ⟨[], []⟩ []
      ⟨0, 0, WorkflowState.NotYetStarted, none⟩
      "550e8400-e29b-41d4-a716-446655440000" "a" "u" "b" "v" (by decide)).2
     ⟨[], []⟩ "a" "16fd2706-8baf-433b-82eb-8c7fada847da" 1 (by decide)⟩

/-- Claim C5 (the code contradicts it): there is no transactional unit in
create_run - the three statements run independently on the pool and step
failures are discarded - and because the run insert always rejects the UUID
bound into run_number, the handler leaves the store unchanged at every
input; the atomic all-or-nothing three-insert unit the claim describes never
executes. -/
theorem create_run_no_atomic_unit (st : Store) (jar : List (String × String))
    (p : CreateRunPayload) (u0 uid1 urn1 uid2 urn2 : String)
    (h0 : u0.data.get? 8 = some '-') :
    (create_run st jar p u0 uid1 urn1 uid2 urn2).2 = st := by
  unfold create_run
  by_cases hj : jarGet jar "session" ≠ some "admin_authorized"
  · rw [if_pos hj]
  · rw [if_neg hj]
    have hins : runs_insert st (SqlValue.text u0) p.file_number p.run_start_date p.state p.url
        = Except.error DbError.typeMismatch := by
      simp [runs_insert, decodeInt, pgTextToInt, pgCharsToInt_hyphen h0]
    rw [hins]

/-- Witness for C5 at a concrete version-4 UUID string. -/
theorem create_run_no_atomic_unit_witness :
    (create_run ⟨[⟨7, 0, 0, WorkflowState.Complete, none⟩], []⟩
      [( "session", "admin_authorized" )] ⟨0, 0, WorkflowState.NotYetStarted, none⟩
      "550e8400-e29b-41d4-a716-446655440000" "a" "b" "c" "d").2
      = ⟨[⟨7, 0, 0, WorkflowState.Complete, none⟩], []⟩ :=
  create_run_no_atomic_unit ⟨[⟨7, 0, 0, WorkflowState.Complete, none⟩], []⟩
    [( "session", "admin_authorized" )] ⟨0, 0, WorkflowState.NotYetStarted, none⟩
    "550e8400-e29b-41d4-a716-446655440000" "a" "b" "c" "d" (by decide)

/-- Counterexample to C3: a step stores site = some "WIPAC"; an authorized
updateStep on that step with every optional field absent clears the stored
value instead of leaving it unchanged. -/
theorem update_step_frame_cex :
    (update_step ⟨[], [⟨"id1", 1, 1, none, none, some "WIPAC", none, none⟩]⟩
      [( "session", "admin_authorized" )] ⟨1, 1, none, none, none, none, none⟩).2.steps
      = [⟨"id1", 1, 1, none, none, none, none, none⟩] := by
  decide

/-- Claim C3 as amended: updateStep overwrites every optional column of the
addressed step with the payload's value unconditionally, so an absent field
empties the stored value rather than preserving it. -/
theorem update_step_overwrites_all_fields (st : Store) (jar : List (String × String))
    (p : UpdateStepPayload) (s : ProcessingStep)
    (hauth : jarGet jar "session" = some "admin_authorized")
    (hs : s ∈ st.steps)
    (hk : s.run_number = p.run_number ∧ s.step_number = p.step_number) :
    { s with started_date := p.started_date, end_date := p.end_date, site := p.site,
             checksum := p.checksum, location := p.location }
      ∈ (update_step st jar p).2.steps := by
  unfold update_step
  rw [if_neg (not_not_intro hauth)]
  have hsf : s ∈ st.steps.filter fun t =>
      decide (t.run_number = p.run_number ∧ t.step_number = p.step_number) :=
    List.mem_filter.mpr ⟨hs, decide_eq_true hk⟩
  have hpos : (st.steps.filter fun t =>
      decide (t.run_number = p.run_number ∧ t.step_number = p.step_number)).length > 0 :=
    List.length_pos.mpr (List.ne_nil_of_mem hsf)
  rw [if_pos hpos]
  have hmem := List.mem_map_of_mem (fun t : ProcessingStep =>
      if t.run_number = p.run_number ∧ t.step_number = p.step_number then
        { t with started_date := p.started_date, end_date := p.end_date, site := p.site,
                 checksum := p.checksum, location := p.location }
      else t) hs
  simpa only [if_pos hk] using hmem

/-- Witness for the amended C3 at a concrete populated step. -/
theorem update_step_overwrites_all_fields_witness :
    (⟨"id1", 1, 1, none, none, none, none, none⟩ : ProcessingStep)
      ∈ (update_step ⟨[], [⟨"id1", 1, 1, some 5, some 6, some "X", some "Y", some "Z"⟩]⟩
          [( "session", "admin_authorized" )] ⟨1, 1, none, none, none, none, none⟩).2.steps :=
  update_step_overwrites_all_fields
    ⟨[], [⟨"id1", 1, 1, some 5, some 6, some "X", some "Y", some "Z"⟩]⟩
    [( "session", "admin_authorized" )] ⟨1, 1, none, none, none, none, none⟩
    ⟨"id1", 1, 1, some 5, some 6, some "X", some "Y", some "Z"⟩
    (by decide) (by simp) (by decide)

/-- Counterexample to C4: an authorized state transition on an existing run
succeeds ("Updated") yet the handler dispatches zero mirror pushes, not
exactly one. -/
theorem update_run_state_push_cex :
    (update_run_state ⟨[⟨1, 0, 0, WorkflowState.NotYetStarted, none⟩], []⟩
      [( "session", "admin_authorized" )] 1 ⟨1, WorkflowState.Complete⟩).1
      = ⟨200, "Updated"⟩ ∧
    (update_run_state ⟨[⟨1, 0, 0, WorkflowState.NotYetStarted, none⟩], []⟩
      [( "session", "admin_authorized" )] 1 ⟨1, WorkflowState.Complete⟩).2.2.length = 0 := by
  decide

/-- Claim C4 as amended: no code path of update_run_state schedules a mirror
push - push_to_github_event is never invoked by any handler - so a
successful transition schedules zero pushes. -/
theorem update_run_state_schedules_no_push (st : Store) (jar : List (String × String))
    (run_number : Int) (p : UpdateRunStatePayload) :
    (update_run_state st jar run_number p).2.2 = [] := by
  unfold update_run_state
  by_cases hj : jarGet jar "session" ≠ some "admin_authorized"
  · rw [if_pos hj]
  · rw [if_neg hj]
    by_cases hpos : (st.runs.filter fun r => decide (r.run_number = run_number)).length > 0
    · rw [if_pos hpos]
    · rw [if_neg hpos]

/-- Counterexample to C6: an external write lands between the fetch and the
conditional write, so the PUT comes back 409 Conflict - yet the push has
performed exactly one fetch and one write, retries nothing, and reports
success. -/
theorem push_conflict_no_retry_cex :
    (push_to_github_event ⟨1, 0, 0, WorkflowState.Complete, none⟩ ⟨[], "s0"⟩
      (some ⟨[], "s1"⟩) "s2").lastStatus = 409 ∧
    (push_to_github_event ⟨1, 0, 0, WorkflowState.Complete, none⟩ ⟨[], "s0"⟩
      (some ⟨[], "s1"⟩) "s2").writes = 1 ∧
    (push_to_github_event ⟨1, 0, 0, WorkflowState.Complete, none⟩ ⟨[], "s0"⟩
      (some ⟨[], "s1"⟩) "s2").okResult = true := by
  decide

/-- Claim C6 as amended: push_to_github_event performs exactly one fetch and
one conditional write on every call, never inspects the write's status, and
returns success regardless - a Conflict is neither detected nor retried. -/
theorem push_never_retries (run : Run) (m : Mirror) (midway : Option Mirror)
    (newSha : String) :
    (push_to_github_event run m midway newSha).fetches = 1 ∧
    (push_to_github_event run m midway newSha).writes = 1 ∧
    (push_to_github_event run m midway newSha).okResult = true :=
  ⟨rfl, rfl, rfl⟩

/-- Counterexample to C8: an authorized updateStep on an empty store - the
(1, 1) pair does not exist - answers with HTTP 200 and the soft body "No
steps updated", not a NotFound failure. -/
theorem update_step_notfound_cex :
    (update_step ⟨[], []⟩ [( "session", "admin_authorized" )]
      ⟨1, 1, none, none, none, none, none⟩).1.status = 200 ∧
    (update_step ⟨[], []⟩ [( "session", "admin_authorized" )]
      ⟨1, 1, none, none, none, none, none⟩).1.body = "No steps updated" ∧
    (update_step ⟨[], []⟩ [( "session", "admin_authorized" )]
      ⟨1, 1, none, none, none, none, none⟩).1.status ≠ 404 := by
  decide

/-- Claim C8 as amended: when the (runNumber, stepNumber) pair does not
exist, updateStep reports zero rows affected as a 200 "No steps updated"
response with the store untouched, rather than failing with NotFound. -/
theorem update_step_missing_pair_soft (st : Store) (jar : List (String × String))
    (p : UpdateStepPayload)
    (hauth : jarGet jar "session" = some "admin_authorized")
    (hmiss : ∀ s ∈ st.steps, ¬(s.run_number = p.run_number ∧ s.step_number = p.step_number)) :
    update_step st jar p = (⟨200, "No steps updated"⟩, st) := by
  unfold update_step
  rw [if_neg (not_not_intro hauth)]
  have hf : (st.steps.filter fun t =>
      decide (t.run_number = p.run_number ∧ t.step_number = p.step_number)) = [] := by
    rw [List.filter_eq_nil_iff]
    intro a ha
    simpa using hmiss a ha
  rw [hf]
  simp

/-- Witness for the amended C8 on an empty store. -/
theorem update_step_missing_pair_soft_witness :
    update_step ⟨[], []⟩ [( "session", "admin_authorized" )]
      ⟨1, 1, none, none, none, none, none⟩
      = (⟨200, "No steps updated"⟩, ⟨[], []⟩) :=
  update_step_missing_pair_soft ⟨[], []⟩ [( "session", "admin_authorized" )]
    ⟨1, 1, none, none, none, none, none⟩ (by decide) (by simp)

